import Mathlib

/-
Verification of the frame-pool extraction, sprite-packing and
viewport-resampling pipeline of the videoMusic repository.

The numeric JavaScript code is embedded shallowly over ℚ (JS numbers are
used here only on values where binary floating point is exact or where the
algorithms are pure real arithmetic: `0.5`, `1.2`, integer counts,
divisions whose rounding is immediately floored/ceiled).  `Math.floor` /
`Math.ceil` become `Int.floor` / `Int.ceil`, the JS remainder operator
becomes `jsMod` (truncated division remainder), and `NaN`-accepting
entry points take a `JSNum` argument that is either `nan` or a rational.

Sources embedded:
  - src/data/config.ts               (constants)
  - src/utils/videoFrame.ts          (frame sampler, sprite packer,
                                      calculateFramePosition)
  - src/composables/useVideoFrames.ts (pool manager, cache phase,
                                      viewport resampler)
  - src/utils/storageHelper.ts       (quota handling, not needed by the
                                      claims below)
-/

/- ===== config.ts ===== -/

/-- `frameHeight` from src/data/config.ts: fixed thumbnail height (80 px). -/
def frameHeight : ℚ := 80

/-- `VIDEO_FRAME_CACHE_EXPIRE` from config.ts: 7200 * 1000 ms. -/
def VIDEO_FRAME_CACHE_EXPIRE : ℤ := 7200 * 1000

/-- `SPRITE_CACHE_EXPIRE` from config.ts: 3600 * 1000 ms. -/
def SPRITE_CACHE_EXPIRE : ℤ := 3600 * 1000

/- ===== videoFrame.ts : frame sampler ===== -/

/-- Short-video frame-count adjustment shared by `getVideoFramesSerial`
(lines 38-49) and `getVideoFramesConcurrent` (lines 189-199):
`if (duration < 10) adjusted = Math.max(5, Math.min(frameCount, Math.floor(duration / 0.5) + 1))`. -/
def adjustedFrameCount (duration : ℚ) (frameCount : ℤ) : ℤ :=
  if duration < 10 then
    max 5 (min frameCount (Int.floor (duration / (1/2)) + 1))
  else frameCount

/-- Sample time of frame `i`: `const time = (i / adjustedFrameCount) * duration`. -/
def sampleTime (n : ℤ) (duration : ℚ) (i : ℕ) : ℚ :=
  ((i : ℚ) / (n : ℚ)) * duration

/-- The full schedule of sample times attempted by either extraction
strategy for a request of `frameCount` frames. -/
def sampleTimes (duration : ℚ) (frameCount : ℤ) : List ℚ :=
  (List.range (adjustedFrameCount duration frameCount).toNat).map
    (sampleTime (adjustedFrameCount duration frameCount) duration)

/-- Per-frame outcome of one iteration of the serial extraction loop in
`getVideoFramesSerial` (lines 59-125).  A decoder stall produces no
`seeked` event, so inside the code it surfaces as the seek timeout, which
is resolved as success (`resolveSeek()`), after which the loop rasterizes
whatever frame the video element currently displays.  A `seeked`-`error`
event rejects the inner promise and the loop `continue`s without pushing;
a draw failure also `continue`s without pushing. -/
inductive SeekOutcome where
  | ok : SeekOutcome
  | timeout : SeekOutcome
  | seekError : SeekOutcome
  | drawError : SeekOutcome
deriving DecidableEq

/-- State-passing model of the serial loop: `i` is the loop index, the
`displayed` argument is the index of the sample the video element last
successfully sought to (`none` before any successful seek).  A pushed
entry records which sample's pixels the pushed canvas holds. -/
def serialCaptureAux : List SeekOutcome → ℕ → Option ℕ → List (Option ℕ)
  | [], _, _ => []
  | SeekOutcome.ok :: rest, i, _ => some i :: serialCaptureAux rest (i + 1) (some i)
  | SeekOutcome.timeout :: rest, i, displayed =>
      displayed :: serialCaptureAux rest (i + 1) displayed
  | SeekOutcome.seekError :: rest, i, displayed => serialCaptureAux rest (i + 1) displayed
  | SeekOutcome.drawError :: rest, i, _ => serialCaptureAux rest (i + 1) (some i)

/-- Frames pushed by the serial extraction loop, one outcome per sampled index. -/
def serialCapture (outcomes : List SeekOutcome) : List (Option ℕ) :=
  serialCaptureAux outcomes 0 none

/- ===== videoFrame.ts : sprite packer (createSpriteImage) ===== -/

/-- Column clamp of `createSpriteImage` (line 359):
`cols = Math.max(1, Math.min(cols || 1, frames.length))`. -/
def effectiveCols (cols F : ℕ) : ℕ :=
  max 1 (min (if cols = 0 then 1 else cols) F)

/-- Row count of `createSpriteImage` (line 362): `rows = Math.ceil(frames.length / cols)`,
as natural ceiling division. -/
def spriteRows (F cols : ℕ) : ℕ := (F + cols - 1) / cols

/-- Grid cell of frame `i` (lines 397-398): `row = Math.floor(i / cols)`, `col = i % cols`. -/
def spriteCell (i cols : ℕ) : ℕ × ℕ := (i / cols, i % cols)

/-- Placement decision for index `i` of the painting loop (lines 389-413):
a missing (`null`) frame or a zero-dimension frame is skipped (its cell is
left blank), a valid frame is painted at `spriteCell i cols`.  Frames are
lists of optional `(width, height)` dimension pairs. -/
def paintCell (frames : List (Option (ℕ × ℕ))) (cols i : ℕ) : Option (ℕ × ℕ) :=
  match frames[i]? with
  | some (some (w, h)) => if w = 0 ∨ h = 0 then none else some (spriteCell i cols)
  | _ => none

/-- All grid placements of the painting loop, in index order. -/
def framePaint (frames : List (Option (ℕ × ℕ))) (cols : ℕ) : List (Option (ℕ × ℕ)) :=
  (List.range frames.length).map (paintCell frames cols)

/-- Grid layout computed by `createSpriteImage` (lines 348-442): the
empty-input sentinel (`rows = 0, cols = 0`), the column clamp, the row
count, and the cell of every painted frame.  The Base64 encoding of the
composite canvas (step 7) is outside the model; the zero-valid-frames
sentinel check is kept. -/
def createSpriteImage (frames : List (Option (ℕ × ℕ))) (cols : ℕ) :
    ℕ × ℕ × List (Option (ℕ × ℕ)) :=
  if frames.length = 0 then (0, 0, [])
  else
    let c := effectiveCols cols frames.length
    let cells := framePaint frames c
    if cells.all Option.isNone then (0, 0, cells)
    else (spriteRows frames.length c, c, cells)

/- ===== videoFrame.ts : calculateFramePosition ===== -/

/-- A JavaScript number argument that may be `NaN`. -/
inductive JSNum where
  | nan : JSNum
  | num : ℚ → JSNum
deriving DecidableEq

/-- Sanitization step 1 for the index (line 466):
`if (isNaN(index) || index < 0) index = 0`. -/
def sanitizeIndex : JSNum → ℚ
  | JSNum.nan => 0
  | JSNum.num q => if q < 0 then 0 else q

/-- Sanitization step 1 for `cols` / `frameWidth` / `frameHeight`
(lines 467-469): `if (isNaN(x) || x < 1) x = 1`. -/
def sanitizeAtLeastOne : JSNum → ℚ
  | JSNum.nan => 1
  | JSNum.num q => if q < 1 then 1 else q

/-- Index after the defensive clamp (lines 472-474):
`if (totalFrames && !isNaN(totalFrames) && totalFrames > 0) index = Math.min(index, totalFrames - 1)`.
`undefined`, `0` and `NaN` are all falsy, so the clamp runs exactly when a
numeric `totalFrames > 0` was supplied. -/
def fpIndex (index : JSNum) (totalFrames : Option JSNum) : ℚ :=
  match totalFrames with
  | some (JSNum.num t) =>
      if 0 < t then min (sanitizeIndex index) (t - 1) else sanitizeIndex index
  | _ => sanitizeIndex index

/-- JavaScript truncation toward zero. -/
def jsTrunc (q : ℚ) : ℤ := if q < 0 then Int.ceil q else Int.floor q

/-- The JavaScript remainder operator `%`: `a - b * trunc(a / b)`. -/
def jsMod (a b : ℚ) : ℚ := a - b * (jsTrunc (a / b) : ℚ)

/-- Result record of `calculateFramePosition`. -/
structure FramePosition where
  row : ℤ
  col : ℚ
  dataThumb : String
deriving DecidableEq

/-- `calculateFramePosition` (videoFrame.ts lines 454-488): sanitize,
clamp, then `row = Math.floor(index / cols)`, `col = index % cols`, plus a
debug identifier string. -/
def calculateFramePosition (index cols frameWidth frameHeight : JSNum)
    (totalFrames : Option JSNum) : FramePosition :=
  let i := fpIndex index totalFrames
  let c := sanitizeAtLeastOne cols
  let w := sanitizeAtLeastOne frameWidth
  let h := sanitizeAtLeastOne frameHeight
  let row := Int.floor (i / c)
  let col := jsMod i c
  ⟨row, col,
    "frame_" ++ toString i ++ "_row" ++ toString row ++ "_col" ++ toString col
      ++ "_" ++ toString w ++ "x" ++ toString h⟩

/- ===== useVideoFrames.ts : pool sizing ===== -/

/-- `MAX_SCREEN_WIDTH = window.screen.width * 1.2` (useVideoFrames.ts line 389),
with the screen width as a parameter. -/
def MAX_SCREEN_WIDTH (screenWidth : ℚ) : ℚ := screenWidth * (6/5)

/-- `calculateTotalFrames` (useVideoFrames.ts lines 409-420, the current
revision of the function; the superseded draft at lines 65-70 lacks the
aspect-ratio clamp and the upper cap of 50):
clamp the aspect ratio to `[0.1, 10]`, divide the anticipated width by the
single-frame width, add the surplus of 5, clamp into `[10, 50]`. -/
def calculateTotalFrames (screenWidth videoAspectRatio : ℚ) : ℤ :=
  let safeAspectRatio := max (1/10) (min videoAspectRatio 10)
  let singleFrameWidth := frameHeight * safeAspectRatio
  let baseFrames := Int.ceil (MAX_SCREEN_WIDTH screenWidth / singleFrameWidth)
  let totalFrames := baseFrames + 5
  max (min totalFrames 50) 10

/- ===== useVideoFrames.ts : viewport resampler ===== -/

/-- `needFrameCount = Math.max(1, Math.ceil(containerWidth / displayFrameWidth))`
(useVideoFrames.ts line 653). -/
def needFrameCount (containerWidth displayFrameWidth : ℚ) : ℤ :=
  max 1 (Int.ceil (containerWidth / displayFrameWidth))

/-- `actualNeed = Math.min(needFrameCount, totalFrames)` (line 654). -/
def actualNeed (containerWidth displayFrameWidth : ℚ) (totalFrames : ℕ) : ℤ :=
  min (needFrameCount containerWidth displayFrameWidth) (totalFrames : ℤ)

/-- The even-interpolation index selection loop (lines 656-671):
for `i = 0 … actualNeed-1`,
`frameIndex = Math.floor((i / Math.max(1, actualNeed - 1)) * (totalFrames - 1))`. -/
def selectedIndexes (totalFrames count : ℕ) : List ℤ :=
  (List.range count).map (fun (i : ℕ) =>
    Int.floor (((i : ℚ) / (max 1 (count - 1) : ℕ)) * ((totalFrames : ℚ) - 1)))

/- ===== useVideoFrames.ts : cache lookup phase of initPreciseFramePool ===== -/

/-- The two persisted records consulted by `initPreciseFramePool`
(useVideoFrames.ts lines 433-451), reduced to their stored timestamps:
`metaTs` is the FramePool record (`video_meta_…` key), `spriteTs` the
SpriteSheet record (`video_sprite_…` key); `none` means the key is absent
(or its read failed, which the code treats identically). -/
structure CacheState where
  metaTs : Option ℤ
  spriteTs : Option ℤ
deriving DecidableEq

/-- One guarded read:
`if (stored && Date.now() - stored.timestamp < TTL) keep else if (stored) remove`.
Returns the accepted record (first component) and what remains stored
after the read (second component). -/
def readAndExpire (stored : Option ℤ) (now ttl : ℤ) : Option ℤ × Option ℤ :=
  match stored with
  | none => (none, none)
  | some ts => if now - ts < ttl then (some ts, some ts) else (none, none)

/-- The cache lookup phase of `initPreciseFramePool`: read both records
with their own TTLs; the Boolean is the cache-hit condition
`cachedMeta && cachedSprite` (line 496). -/
def initCacheDecision (st : CacheState) (now : ℤ) : Bool × CacheState :=
  let m := readAndExpire st.metaTs now VIDEO_FRAME_CACHE_EXPIRE
  let s := readAndExpire st.spriteTs now SPRITE_CACHE_EXPIRE
  (m.1.isSome && s.1.isSome, ⟨m.2, s.2⟩)

/-- The successful run of `initPreciseFramePool` around the cache phase:
on a hit the function returns without extraction; on a miss it extracts,
packs, and persists BOTH records with fresh timestamps (lines 563-584).
The Boolean is `true` when extraction plus packing were performed. -/
def initPoolRun (st : CacheState) (now : ℤ) : Bool × CacheState :=
  let d := initCacheDecision st now
  if d.1 then (false, d.2) else (true, ⟨some now, some now⟩)

/- ===== useVideoFrames.ts : sampleFramesFromPool ===== -/

/-- `SpriteInfo` from components/types.ts. -/
structure SpriteInfo where
  spriteUrl : String
  rows : ℕ
  cols : ℕ
deriving DecidableEq

/-- `CachedFullFrameData` from components/types.ts. -/
structure CachedFullFrameData where
  videoAspectRatio : ℚ
  frameWidth : ℚ
  frameHeight : ℚ
  totalFrames : ℕ
  duration : ℚ
  timestamp : ℤ
deriving DecidableEq

/-- `CachedFullSpriteData` from components/types.ts. -/
structure CachedFullSpriteData where
  spriteInfo : SpriteInfo
  videoAspectRatio : ℚ
  frameWidth : ℚ
  frameHeight : ℚ
  totalFrames : ℕ
  timestamp : ℤ
deriving DecidableEq

/-- `FrameItem` from components/types.ts (one resampled display frame). -/
structure FrameItem where
  index : ℕ
  row : ℤ
  col : ℚ
  dataThumb : String
  displayWidth : ℚ
  displayHeight : ℚ
  scale : ℚ
deriving DecidableEq

/-- The `SpriteRender` record written to `spriteData` by the composable. -/
structure SpriteRender where
  url : String
  frameWidth : ℚ
  frameHeight : ℚ
  cols : ℕ
  rows : ℕ
  scale : ℚ
deriving DecidableEq

/-- The two outputs `sampleFramesFromPool` writes (`frameData.value` and
`spriteData.value`). -/
structure ResampleOut where
  frameData : List FrameItem
  spriteData : Option SpriteRender
deriving DecidableEq

/-- `sampleFramesFromPool` (useVideoFrames.ts lines 636-730) as a function
of its explicit state: the container width (`none` when the container
element is absent), the in-memory `fullFrameMeta`, the persistent store
(a map from keys to sprite records; the function reads exactly the one
key `spriteCacheKey`, and a read error is handled like an absent record),
and the previous outputs, which are returned unchanged on every early
`return`. -/
def sampleFramesFromPool (container : Option ℚ)
    (fullFrameMeta : Option CachedFullFrameData)
    (store : String → Option CachedFullSpriteData) (spriteCacheKey : String)
    (prev : ResampleOut) : ResampleOut :=
  match container, fullFrameMeta with
  | some containerWidth, some meta =>
    let containerHeight := frameHeight
    let displayFrameWidth := containerHeight * meta.videoAspectRatio
    let displayFrameHeight := containerHeight
    let scale := displayFrameHeight / meta.frameHeight
    let actualNeedCnt := actualNeed containerWidth displayFrameWidth meta.totalFrames
    let idxs := selectedIndexes meta.totalFrames actualNeedCnt.toNat
    match store spriteCacheKey with
    | none => prev
    | some storedSprite =>
      let spriteInfo := storedSprite.spriteInfo
      let framesData := idxs.enum.map (fun p =>
        let pos := calculateFramePosition (JSNum.num (p.2 : ℚ)) (JSNum.num (spriteInfo.cols : ℚ))
          (JSNum.num meta.frameWidth) (JSNum.num meta.frameHeight)
          (some (JSNum.num (meta.totalFrames : ℚ)))
        ⟨p.1, pos.row, pos.col, pos.dataThumb, displayFrameWidth, displayFrameHeight, scale⟩)
      ⟨framesData, some ⟨spriteInfo.spriteUrl, meta.frameWidth, meta.frameHeight,
        spriteInfo.cols, spriteInfo.rows, scale⟩⟩
  | _, _ => prev

/-- A concrete pool record used for the C9 evaluation: square 100×100
video, pool of 10 frames, 5 s duration. -/
def cexMeta : CachedFullFrameData := ⟨1, 100, 100, 10, 5, 0⟩

/-- A concrete stored sprite record used for the C9 evaluation. -/
def cexSprite : CachedFullSpriteData := ⟨⟨"sprite", 1, 10⟩, 1, 100, 100, 10, 0⟩

/- ===== theorems start below (C1 and C5 first) ===== -/

/-- The element of `selectedIndexes` at position `i`. -/
theorem selectedIndexes_getElem (N c i : ℕ) (hi : i < c) :
    (selectedIndexes N c)[i]? =
      some (Int.floor (((i : ℚ) / (max 1 (c - 1) : ℕ)) * ((N : ℚ) - 1))) := by
  unfold selectedIndexes
  rw [List.getElem?_map, List.getElem?_range hi]
  rfl

/-- The interpolation hits the identity when `count = totalFrames`. -/
theorem selectedIndexes_diag (N i : ℕ) (hi : i < N) :
    Int.floor (((i : ℚ) / (max 1 (N - 1) : ℕ)) * ((N : ℚ) - 1)) = (i : ℤ) := by
  rcases Nat.lt_or_ge N 2 with h2 | h2
  · have hN1 : N = 1 := by omega
    have hi0 : i = 0 := by omega
    subst hN1; subst hi0
    norm_num
  · have hmax : max 1 (N - 1) = N - 1 := by omega
    have hcast : ((N - 1 : ℕ) : ℚ) = (N : ℚ) - 1 := by
      have h1 : 1 ≤ N := by omega
      push_cast [h1]
      ring
    have hne : ((N : ℚ) - 1) ≠ 0 := by
      have : (2 : ℚ) ≤ (N : ℚ) := by exact_mod_cast h2
      linarith
    rw [hmax, hcast, div_mul_cancel₀ _ hne, Int.floor_natCast]

/-- C1: for a pool with `totalFrames ≥ 1` and a positive display width the
resampler computes `actualNeed = min(max(1, ceil(containerWidth / displayFrameWidth)), totalFrames)`
and selects `floor((i / max(1, actualNeed-1)) * (totalFrames-1))` for
`i = 0 … actualNeed-1`; the interpolation denominator is never zero, when
`actualNeed > 1` the first selected index is `0` and the last is
`totalFrames - 1`, and when `actualNeed = 1` only index `0` is selected. -/
theorem C1_resample_even_interpolation (N : ℕ) (w dfw : ℚ) (ac : ℤ)
    (hN : 1 ≤ N) (hw : 0 < w) (hdfw : 0 < dfw)
    (hac : ac = actualNeed w dfw N) :
    ac = min (max 1 (Int.ceil (w / dfw))) (N : ℤ) ∧
    1 ≤ ac ∧
    0 < max 1 (ac.toNat - 1) ∧
    selectedIndexes N ac.toNat =
      (List.range ac.toNat).map (fun (i : ℕ) =>
        Int.floor (((i : ℚ) / (max 1 (ac.toNat - 1) : ℕ)) * ((N : ℚ) - 1))) ∧
    (1 < ac →
      (selectedIndexes N ac.toNat)[0]? = some 0 ∧
      (selectedIndexes N ac.toNat)[ac.toNat - 1]? = some ((N : ℤ) - 1)) ∧
    (ac = 1 → selectedIndexes N 1 = [0]) := by
  have hNZ : 1 ≤ (N : ℤ) := by exact_mod_cast hN
  have h1 : 1 ≤ ac := by
    rw [hac]
    simp only [actualNeed, needFrameCount]
    omega
  refine ⟨by rw [hac]; simp [actualNeed, needFrameCount], h1, by omega, rfl, ?_, ?_⟩
  · intro hgt
    have hc2 : 2 ≤ ac.toNat := by omega
    constructor
    · rw [selectedIndexes_getElem N ac.toNat 0 (by omega)]
      norm_num
    · rw [selectedIndexes_getElem N ac.toNat (ac.toNat - 1) (by omega)]
      have hmax' : max 1 (ac.toNat - 1) = ac.toNat - 1 := by omega
      rw [hmax']
      have hne : ((ac.toNat - 1 : ℕ) : ℚ) ≠ 0 := by
        exact_mod_cast (by omega : (ac.toNat - 1 : ℕ) ≠ 0)
      rw [div_self hne, one_mul]
      have hrw : ((N : ℚ) - 1) = (((N : ℤ) - 1 : ℤ) : ℚ) := by push_cast; ring
      rw [hrw, Int.floor_intCast]
  · intro hac1
    simp only [selectedIndexes, show List.range 1 = [0] from by decide, List.map_cons,
      List.map_nil]
    norm_num

/-- C1 witness: pool of 5 frames, container 100 px wide, display frame 30 px
wide, so `actualNeed = 4 > 1`. -/
theorem C1_resample_even_interpolation_witness :
    1 ≤ 5 ∧ (0 : ℚ) < 100 ∧ (0 : ℚ) < 30 ∧
    ((selectedIndexes 5 (actualNeed 100 30 5).toNat)[0]? = some 0 ∧
      (selectedIndexes 5 (actualNeed 100 30 5).toNat)[(actualNeed 100 30 5).toNat - 1]? =
        some ((5 : ℤ) - 1)) := by
  have hceil : Int.ceil ((100 : ℚ) / 30) = 4 := by
    rw [Int.ceil_eq_iff]
    norm_num
  have hac : actualNeed 100 30 5 = 4 := by
    simp only [actualNeed, needFrameCount]
    rw [hceil]
    decide
  refine ⟨by norm_num, by norm_num, by norm_num, ?_⟩
  exact (C1_resample_even_interpolation 5 100 30 (actualNeed 100 30 5)
    (by norm_num) (by norm_num) (by norm_num) rfl).2.2.2.2.1 (by rw [hac]; norm_num)

/-- C5: when the resampler needs exactly as many frames as the pool holds
(`actualNeed = totalFrames = N`), the selected indices are exactly
`0, 1, …, N-1`: every pool index once, in increasing order. -/
theorem C5_resample_roundtrip (N : ℕ) :
    selectedIndexes N N = (List.range N).map Int.ofNat := by
  unfold selectedIndexes
  apply List.map_congr_left
  intro i hi
  have h := selectedIndexes_diag N i (List.mem_range.mp hi)
  exact_mod_cast h

/-- `spriteRows` is exactly the rational ceiling `Math.ceil(F / cols)`. -/
theorem spriteRows_eq_ceil (F c : ℕ) (hc : 0 < c) :
    (spriteRows F c : ℤ) = Int.ceil ((F : ℚ) / (c : ℚ)) := by
  unfold spriteRows
  rw [eq_comm, Int.ceil_eq_iff]
  have hdm := Nat.div_add_mod (F + c - 1) c
  have hm : (F + c - 1) % c < c := Nat.mod_lt _ hc
  set r := (F + c - 1) / c with hr
  have hcq : (0 : ℚ) < (c : ℚ) := by exact_mod_cast hc
  have h1 : F ≤ c * r := by omega
  have h2 : c * r < F + c := by omega
  have h1q : (F : ℚ) ≤ (c : ℚ) * (r : ℚ) := by exact_mod_cast h1
  have h2q : (c : ℚ) * (r : ℚ) < (F : ℚ) + (c : ℚ) := by exact_mod_cast h2
  constructor
  · rw [lt_div_iff₀ hcq]
    push_cast
    nlinarith
  · rw [div_le_iff₀ hcq]
    push_cast
    nlinarith

/-- C2: for a non-empty frame list and any requested column count, the
packer clamps the columns into `[1, F]`, computes `rows = ceil(F / cols)`,
and paints frame `i` (when present with non-zero dimensions) at
`row = i / cols`, `col = i % cols`; the placement of an index depends only
on the index and its own entry, so skipped frames never shift later ones.
In particular `F = 23, cols = 10` gives `rows = 3` and cell `(2, 2)` for
index `22`. -/
theorem C2_sprite_packing (frames : List (Option (ℕ × ℕ))) (C : ℕ)
    (hF : 1 ≤ frames.length) :
    1 ≤ effectiveCols C frames.length ∧
    effectiveCols C frames.length ≤ frames.length ∧
    (spriteRows frames.length (effectiveCols C frames.length) : ℤ) =
      Int.ceil ((frames.length : ℚ) / (effectiveCols C frames.length : ℚ)) ∧
    (∀ i, i < frames.length →
      (framePaint frames (effectiveCols C frames.length))[i]? =
        some (paintCell frames (effectiveCols C frames.length) i)) ∧
    (∀ i w h, frames[i]? = some (some (w, h)) → w ≠ 0 → h ≠ 0 →
      paintCell frames (effectiveCols C frames.length) i =
        some (i / effectiveCols C frames.length, i % effectiveCols C frames.length)) ∧
    (∀ (frames₂ : List (Option (ℕ × ℕ))) i, frames[i]? = frames₂[i]? →
      paintCell frames (effectiveCols C frames.length) i =
        paintCell frames₂ (effectiveCols C frames.length) i) ∧
    (spriteRows 23 (effectiveCols 10 23) = 3 ∧ spriteCell 22 (effectiveCols 10 23) = (2, 2)) := by
  have hcols1 : 1 ≤ effectiveCols C frames.length := by
    unfold effectiveCols
    omega
  have hcols2 : effectiveCols C frames.length ≤ frames.length := by
    unfold effectiveCols
    omega
  refine ⟨hcols1, hcols2, spriteRows_eq_ceil _ _ (by omega), ?_, ?_, ?_, by decide⟩
  · intro i hi
    unfold framePaint
    rw [List.getElem?_map, List.getElem?_range hi]
    rfl
  · intro i w h hget hw hh
    unfold paintCell
    rw [hget]
    simp [spriteCell, hw, hh]
  · intro frames₂ i hsame
    unfold paintCell
    rw [hsame]

/-- C2 witness: 23 frames of size 4×3, requested 10 columns. -/
theorem C2_sprite_packing_witness :
    1 ≤ (List.replicate 23 (some ((4 : ℕ), (3 : ℕ)))).length ∧
    (spriteRows 23 (effectiveCols 10 23) = 3 ∧ spriteCell 22 (effectiveCols 10 23) = (2, 2)) := by
  have h := C2_sprite_packing (List.replicate 23 (some ((4 : ℕ), (3 : ℕ)))) 10 (by decide)
  exact ⟨by decide, h.2.2.2.2.2.2⟩

/-- C3: for `frameCount ≥ 1` and `duration > 0` the extraction schedule is
`t_i = (i / adjustedFrameCount) * duration` for
`i = 0 … adjustedFrameCount - 1`; the times are monotonically
non-decreasing, the first is exactly `0` and the last is strictly less
than `duration`. -/
theorem C3_sample_times (frameCount : ℤ) (duration : ℚ) (n : ℤ)
    (hfc : 1 ≤ frameCount) (hd : 0 < duration)
    (hn : n = adjustedFrameCount duration frameCount) :
    1 ≤ n ∧
    sampleTimes duration frameCount = (List.range n.toNat).map (sampleTime n duration) ∧
    sampleTime n duration 0 = 0 ∧
    (∀ i j : ℕ, i ≤ j → sampleTime n duration i ≤ sampleTime n duration j) ∧
    sampleTime n duration (n.toNat - 1) < duration := by
  have h1 : 1 ≤ n := by
    rw [hn]
    unfold adjustedFrameCount
    split
    · omega
    · omega
  have hnq : (0 : ℚ) < (n : ℚ) := by exact_mod_cast (by omega : (0 : ℤ) < n)
  refine ⟨h1, by rw [hn]; rfl, by simp [sampleTime], ?_, ?_⟩
  · intro i j hij
    unfold sampleTime
    have hij' : (i : ℚ) ≤ (j : ℚ) := by exact_mod_cast hij
    have hdiv : (i : ℚ) / (n : ℚ) ≤ (j : ℚ) / (n : ℚ) :=
      div_le_div_of_nonneg_right hij' hnq.le
    exact mul_le_mul_of_nonneg_right hdiv (le_of_lt hd)
  · unfold sampleTime
    have hcast : ((n.toNat - 1 : ℕ) : ℚ) = (n : ℚ) - 1 := by
      have h2 : 1 ≤ n.toNat := by omega
      have h3 : ((n.toNat : ℕ) : ℚ) = (n : ℚ) := by exact_mod_cast Int.toNat_of_nonneg (by omega)
      push_cast [h2]
      linarith
    rw [hcast, div_mul_eq_mul_div, div_lt_iff₀ hnq]
    nlinarith

/-- C3 witness: `frameCount = 7`, `duration = 4` (a short video: the
adjusted count is `max(5, min(7, floor(4/0.5)+1)) = 7`). -/
theorem C3_sample_times_witness :
    (1 : ℤ) ≤ 7 ∧ (0 : ℚ) < 4 ∧
    sampleTime (adjustedFrameCount 4 7) 4 0 = 0 := by
  refine ⟨by norm_num, by norm_num, ?_⟩
  exact (C3_sample_times 7 4 (adjustedFrameCount 4 7) (by norm_num) (by norm_num) rfl).2.2.1

/-- C4 counterexample: the short-source branch requires `duration < 10`
strictly, so a source of exactly 10 seconds with `frameCount = 45` is NOT
reduced to 21 frames; the count stays 45 and already the first gap
between consecutive sample times is `10/45 < 0.5`. -/
theorem C4_counterexample :
    adjustedFrameCount 10 45 = 45 ∧
    ¬ adjustedFrameCount 10 45 = 21 ∧
    sampleTime 45 10 1 - sampleTime 45 10 0 < 1/2 := by
  have h : adjustedFrameCount 10 45 = 45 := by
    unfold adjustedFrameCount
    norm_num
  refine ⟨h, by rw [h]; norm_num, ?_⟩
  unfold sampleTime
  norm_num

/-- C4 amended: with `duration = 10` and `frameCount = 45` the serial
extraction applies no short-source adjustment (the branch fires only for
`duration < 10` strictly): the frame count stays 45 and every gap between
consecutive sample times equals `10/45 = 2/9` seconds, which is less than
`0.5` seconds. -/
theorem C4_no_adjustment_at_ten_seconds (i : ℕ) (hi : i + 1 < 45) :
    adjustedFrameCount 10 45 = 45 ∧
    sampleTime (adjustedFrameCount 10 45) 10 (i + 1) -
      sampleTime (adjustedFrameCount 10 45) 10 i = 2/9 ∧
    (2/9 : ℚ) < 1/2 := by
  have h : adjustedFrameCount 10 45 = 45 := by
    unfold adjustedFrameCount
    norm_num
  refine ⟨h, ?_, by norm_num⟩
  rw [h]
  unfold sampleTime
  push_cast
  ring

/-- C4 witness: the first gap, `t_1 - t_0`. -/
theorem C4_no_adjustment_at_ten_seconds_witness :
    0 + 1 < 45 ∧
    sampleTime (adjustedFrameCount 10 45) 10 (0 + 1) -
      sampleTime (adjustedFrameCount 10 45) 10 0 = 2/9 :=
  ⟨by norm_num, (C4_no_adjustment_at_ten_seconds 0 (by norm_num)).2.1⟩

/-- C6: `calculateTotalFrames` computes
`clamp(ceil(screenWidth * 1.2 / (frameHeight * clamp(aspectRatio, 0.1, 10))) + 5, 10, 50)`
and its result always lies in `[10, 50]`, for every rational aspect ratio
and screen width. -/
theorem C6_total_frames_bounds (screenWidth videoAspectRatio : ℚ) :
    calculateTotalFrames screenWidth videoAspectRatio =
      max (min (Int.ceil (screenWidth * (6/5) /
        (frameHeight * (max (1/10) (min videoAspectRatio 10)))) + 5) 50) 10 ∧
    10 ≤ calculateTotalFrames screenWidth videoAspectRatio ∧
    calculateTotalFrames screenWidth videoAspectRatio ≤ 50 := by
  have hrfl : calculateTotalFrames screenWidth videoAspectRatio =
      max (min (Int.ceil (screenWidth * (6/5) /
        (frameHeight * (max (1/10) (min videoAspectRatio 10)))) + 5) 50) 10 := rfl
  refine ⟨hrfl, ?_, ?_⟩ <;> rw [hrfl] <;> omega

/-- C7: extraction plus packing is skipped iff both the FramePool record
(7200 s window) and the SpriteSheet record (3600 s window) are present and
strictly younger than their own expiry; a present-but-expired record is
deleted from the store during the read; and on any miss both records are
rebuilt from scratch with fresh timestamps. -/
theorem C7_cache_expiry (st : CacheState) (now : ℤ) :
    ((initPoolRun st now).1 = false ↔
      (∃ tm, st.metaTs = some tm ∧ now - tm < VIDEO_FRAME_CACHE_EXPIRE) ∧
      (∃ ts, st.spriteTs = some ts ∧ now - ts < SPRITE_CACHE_EXPIRE)) ∧
    (∀ tm, st.metaTs = some tm → ¬(now - tm < VIDEO_FRAME_CACHE_EXPIRE) →
      (initCacheDecision st now).2.metaTs = none) ∧
    (∀ ts, st.spriteTs = some ts → ¬(now - ts < SPRITE_CACHE_EXPIRE) →
      (initCacheDecision st now).2.spriteTs = none) ∧
    ((initPoolRun st now).1 = true →
      (initPoolRun st now).2 = CacheState.mk (some now) (some now)) := by
  obtain ⟨m, sp⟩ := st
  refine ⟨?_, ?_, ?_, ?_⟩
  · cases m <;> cases sp <;>
      simp only [initPoolRun, initCacheDecision, readAndExpire] <;>
      split_ifs <;> simp_all
  · intro tm htm hexp
    show (readAndExpire (CacheState.mk m sp).metaTs now VIDEO_FRAME_CACHE_EXPIRE).2 = none
    rw [htm]
    simp only [readAndExpire]
    rw [if_neg hexp]
  · intro ts hts hexp
    show (readAndExpire (CacheState.mk m sp).spriteTs now SPRITE_CACHE_EXPIRE).2 = none
    rw [hts]
    simp only [readAndExpire]
    rw [if_neg hexp]
  · intro hrun
    by_cases h : (initCacheDecision (CacheState.mk m sp) now).1
    · exfalso
      simp [initPoolRun, h] at hrun
    · simp [initPoolRun, h]

/-- C7 witness (scenario C): a FramePool record written at time 0 read at
`now = 3600001` is still valid, while the SpriteSheet record written at
time 0 is expired, so extraction is performed again and both records are
overwritten. -/
theorem C7_cache_expiry_witness :
    (initCacheDecision (CacheState.mk (some 0) (some 0)) 3600001).2.spriteTs = none ∧
    (initPoolRun (CacheState.mk (some 0) (some 0)) 3600001).2 =
      CacheState.mk (some 3600001) (some 3600001) := by
  have h := C7_cache_expiry (CacheState.mk (some 0) (some 0)) 3600001
  refine ⟨h.2.2.1 0 rfl (by norm_num [SPRITE_CACHE_EXPIRE]), h.2.2.2 ?_⟩
  have hiff := h.1
  by_cases hrun : (initPoolRun (CacheState.mk (some 0) (some 0)) 3600001).1 = true
  · exact hrun
  · exfalso
    have hboth := hiff.mp (by simpa using hrun)
    obtain ⟨-, ts, hts, hlt⟩ := hboth
    simp only [Option.some.injEq] at hts
    subst hts
    simp [SPRITE_CACHE_EXPIRE] at hlt

/-- Length of the serial loop output when no per-frame error path is hit:
timeouts still push a canvas, so the count is preserved. -/
theorem serialCaptureAux_length (outcomes : List SeekOutcome) :
    ∀ (i : ℕ) (d : Option ℕ),
      (∀ o ∈ outcomes, o = SeekOutcome.ok ∨ o = SeekOutcome.timeout) →
      (serialCaptureAux outcomes i d).length = outcomes.length := by
  induction outcomes with
  | nil => intro i d _; rfl
  | cons o rest ih =>
    intro i d h
    have ho := h o (List.mem_cons_self o rest)
    have hrest : ∀ o' ∈ rest, o' = SeekOutcome.ok ∨ o' = SeekOutcome.timeout :=
      fun o' ho' => h o' (List.mem_cons_of_mem o ho')
    rcases ho with ho | ho <;> subst ho <;>
      simp [serialCaptureAux, ih _ _ hrest]

/-- Entry `j` of the serial loop output, general form: a successful seek
at relative position `j` captures sample `i + j`; a timeout at position
`j` repeats the entry before it (or the initial display state at `j = 0`). -/
theorem serialCaptureAux_entries (outcomes : List SeekOutcome) :
    ∀ (i : ℕ) (d : Option ℕ),
      (∀ o ∈ outcomes, o = SeekOutcome.ok ∨ o = SeekOutcome.timeout) →
      (∀ j, outcomes[j]? = some SeekOutcome.ok →
        (serialCaptureAux outcomes i d)[j]? = some (some (i + j))) ∧
      (outcomes[0]? = some SeekOutcome.timeout →
        (serialCaptureAux outcomes i d)[0]? = some d) ∧
      (∀ j, outcomes[j + 1]? = some SeekOutcome.timeout →
        (serialCaptureAux outcomes i d)[j + 1]? = (serialCaptureAux outcomes i d)[j]?) := by
  induction outcomes with
  | nil =>
    intro i d _
    refine ⟨fun j hj => by simp at hj, fun hj => by simp at hj, fun j hj => by simp at hj⟩
  | cons o rest ih =>
    intro i d h
    have ho := h o (List.mem_cons_self o rest)
    have hrest : ∀ o' ∈ rest, o' = SeekOutcome.ok ∨ o' = SeekOutcome.timeout :=
      fun o' ho' => h o' (List.mem_cons_of_mem o ho')
    rcases ho with ho | ho <;> subst ho
    · refine ⟨?_, ?_, ?_⟩
      · intro j hj
        cases j with
        | zero => simp [serialCaptureAux]
        | succ k =>
          have hk := (ih (i + 1) (some i) hrest).1 k (by simpa using hj)
          simpa [serialCaptureAux, Nat.add_assoc, Nat.add_comm 1 k] using hk
      · intro hj
        simp at hj
      · intro j hj
        cases j with
        | zero =>
          have hk := (ih (i + 1) (some i) hrest).2.1 (by simpa using hj)
          simp [serialCaptureAux, hk]
        | succ k =>
          have hk := (ih (i + 1) (some i) hrest).2.2 k (by simpa using hj)
          simpa [serialCaptureAux] using hk
    · refine ⟨?_, ?_, ?_⟩
      · intro j hj
        cases j with
        | zero => simp at hj
        | succ k =>
          have hk := (ih (i + 1) d hrest).1 k (by simpa using hj)
          simpa [serialCaptureAux, Nat.add_assoc, Nat.add_comm 1 k] using hk
      · intro _
        simp [serialCaptureAux]
      · intro j hj
        cases j with
        | zero =>
          have hk := (ih (i + 1) d hrest).2.1 (by simpa using hj)
          simp [serialCaptureAux, hk]
        | succ k =>
          have hk := (ih (i + 1) d hrest).2.2 k (by simpa using hj)
          simpa [serialCaptureAux] using hk

/-- C8: in the serial strategy, when every per-frame outcome is either a
successful seek or a timeout/stall (the timeout path resolves as success
and rasterizes the currently displayed frame), the output keeps exactly
one entry per sampled index; a successful index `i` captures sample `i`,
and a timed-out index `i + 1` holds the same pixels as entry `i` — the
previous successfully captured frame is reused as the fallback. -/
theorem C8_serial_timeout_fallback (outcomes : List SeekOutcome)
    (h : ∀ o ∈ outcomes, o = SeekOutcome.ok ∨ o = SeekOutcome.timeout) :
    (serialCapture outcomes).length = outcomes.length ∧
    (∀ i : ℕ, outcomes[i]? = some SeekOutcome.ok →
      (serialCapture outcomes)[i]? = some (some i)) ∧
    (∀ i : ℕ, outcomes[i + 1]? = some SeekOutcome.timeout →
      (serialCapture outcomes)[i + 1]? = (serialCapture outcomes)[i]?) := by
  have he := serialCaptureAux_entries outcomes 0 none h
  refine ⟨serialCaptureAux_length outcomes 0 none h, ?_, he.2.2⟩
  intro i hi
  have hk := he.1 i hi
  rw [Nat.zero_add] at hk
  exact hk

/-- C8 witness: outcomes `[ok, timeout, ok]` — three entries out, sample 0
captured at index 0, and the timed-out slot 1 repeats slot 0. -/
theorem C8_serial_timeout_fallback_witness :
    (∀ o ∈ [SeekOutcome.ok, SeekOutcome.timeout, SeekOutcome.ok],
      o = SeekOutcome.ok ∨ o = SeekOutcome.timeout) ∧
    (serialCapture [SeekOutcome.ok, SeekOutcome.timeout, SeekOutcome.ok]).length =
      [SeekOutcome.ok, SeekOutcome.timeout, SeekOutcome.ok].length ∧
    (serialCapture [SeekOutcome.ok, SeekOutcome.timeout, SeekOutcome.ok])[0 + 1]? =
      (serialCapture [SeekOutcome.ok, SeekOutcome.timeout, SeekOutcome.ok])[0]? := by
  have h := C8_serial_timeout_fallback [SeekOutcome.ok, SeekOutcome.timeout, SeekOutcome.ok]
    (by decide)
  exact ⟨by decide, h.1, h.2.2 0 (by decide)⟩

/-- The number of indices selected is exactly the count argument. -/
theorem selectedIndexes_length (N c : ℕ) : (selectedIndexes N c).length = c := by
  simp [selectedIndexes]

/-- C9 counterexample: with a valid pool and a stored sprite but a
container of width zero, `sampleFramesFromPool` is NOT a no-op: the needed
count is clamped to `max(1, ceil(0 / w)) = 1`, so a one-frame output
replaces the previous (empty) output instead of leaving it unchanged. -/
theorem C9_counterexample :
    (sampleFramesFromPool (some 0) (some cexMeta) (fun _ => some cexSprite) "key"
      (ResampleOut.mk [] none)).frameData.length = 1 ∧
    sampleFramesFromPool (some 0) (some cexMeta) (fun _ => some cexSprite) "key"
      (ResampleOut.mk [] none) ≠ ResampleOut.mk [] none := by
  have hac : (actualNeed 0 (frameHeight * cexMeta.videoAspectRatio) cexMeta.totalFrames).toNat
      = 1 := by
    norm_num [actualNeed, needFrameCount, cexMeta, frameHeight]
  have hlen : (sampleFramesFromPool (some 0) (some cexMeta) (fun _ => some cexSprite) "key"
      (ResampleOut.mk [] none)).frameData.length = 1 := by
    simp only [sampleFramesFromPool]
    simp [hac, selectedIndexes_length, List.enum_length]
  refine ⟨hlen, ?_⟩
  intro hEq
  rw [hEq] at hlen
  simp at hlen

/-- C9 amended: `sampleFramesFromPool` reads the persistent store at
exactly one key, so its output is fully determined by the container width,
the pool, and the sprite record under that key — any two stores agreeing
on that key give identical outputs regardless of all other store state; it
is a no-op returning the previous output when the container element, the
pool, or the stored sprite record is absent; but a zero container width
with pool and sprite present is NOT a no-op — the output then has
`max(1, ceil(containerWidth / displayFrameWidth))` (clamped by the pool
size) frames, which is `1` at width zero. -/
theorem C9_resample_state_dependence
    (c : Option ℚ) (mo : Option CachedFullFrameData) (m : CachedFullFrameData)
    (st st2 : String → Option CachedFullSpriteData) (k : String)
    (prev : ResampleOut) (w : ℚ) :
    (st k = st2 k →
      sampleFramesFromPool c mo st k prev = sampleFramesFromPool c mo st2 k prev) ∧
    sampleFramesFromPool none mo st k prev = prev ∧
    sampleFramesFromPool c none st k prev = prev ∧
    (st k = none → sampleFramesFromPool (some w) (some m) st k prev = prev) ∧
    (∀ ssp, st k = some ssp →
      (sampleFramesFromPool (some w) (some m) st k prev).frameData.length =
        (actualNeed w (frameHeight * m.videoAspectRatio) m.totalFrames).toNat) := by
  refine ⟨?_, ?_, ?_, ?_, ?_⟩
  · intro h
    cases c <;> cases mo <;> (try rfl) <;> (simp only [sampleFramesFromPool]; rw [h])
  · cases mo <;> rfl
  · cases c <;> rfl
  · intro h4
    simp only [sampleFramesFromPool, h4]
  · intro ssp hssp
    simp only [sampleFramesFromPool, hssp]
    simp [selectedIndexes_length, List.enum_length]

/-- C9 witness: absent sprite record, pool present, width 0 — the previous
output is returned unchanged. -/
theorem C9_resample_state_dependence_witness :
    ((fun _ : String => (none : Option CachedFullSpriteData)) "key" = none) ∧
    sampleFramesFromPool (some 0) (some cexMeta) (fun _ => none) "key"
      (ResampleOut.mk [] none) = ResampleOut.mk [] none :=
  ⟨rfl, (C9_resample_state_dependence (some 0) (some cexMeta) cexMeta (fun _ => none)
    (fun _ => none) "key" (ResampleOut.mk [] none) 0).2.2.2.1 rfl⟩

/-- The sanitized index is never negative. -/
theorem sanitizeIndex_nonneg (x : JSNum) : 0 ≤ sanitizeIndex x := by
  cases x with
  | nan => simp [sanitizeIndex]
  | num q =>
    simp only [sanitizeIndex]
    split_ifs with hq
    · exact le_refl 0
    · exact not_lt.mp hq

/-- The sanitized cols/width/height is at least one. -/
theorem sanitizeAtLeastOne_ge (x : JSNum) : 1 ≤ sanitizeAtLeastOne x := by
  cases x with
  | nan => simp [sanitizeAtLeastOne]
  | num q =>
    simp only [sanitizeAtLeastOne]
    split_ifs with hq
    · exact le_refl 1
    · exact not_lt.mp hq

/-- The JS remainder for non-negative dividend and positive divisor equals
the floor-based remainder and lies in `[0, b)`. -/
theorem jsMod_bounds (a b : ℚ) (ha : 0 ≤ a) (hb : 0 < b) :
    jsMod a b = a - b * (Int.floor (a / b) : ℚ) ∧ 0 ≤ jsMod a b ∧ jsMod a b < b := by
  have hb0 : b ≠ 0 := ne_of_gt hb
  have htr : jsTrunc (a / b) = Int.floor (a / b) := by
    unfold jsTrunc
    rw [if_neg (not_lt.mpr (div_nonneg ha (le_of_lt hb)))]
  have heq : jsMod a b = a - b * (Int.floor (a / b) : ℚ) := by
    unfold jsMod
    rw [htr]
  have hkey : a - b * (Int.floor (a / b) : ℚ) = b * Int.fract (a / b) := by
    rw [Int.fract]
    field_simp
  refine ⟨heq, ?_, ?_⟩
  · rw [heq, hkey]
    exact mul_nonneg (le_of_lt hb) (Int.fract_nonneg _)
  · rw [heq, hkey]
    calc b * Int.fract (a / b) < b * 1 := mul_lt_mul_of_pos_left (Int.fract_lt_one _) hb
    _ = b := mul_one b

/-- C10 counterexample: the claim fails when the supplied `totalFrames` is
positive but below one.  At `totalFrames = 0.5` the defensive clamp
`index = min(index, totalFrames - 1)` drives the index to `-0.5`, so the
returned row is `-1 < 0` and the returned col is `-0.5 < 0`. -/
theorem C10_counterexample :
    (0 : ℚ) < 1/2 ∧
    (calculateFramePosition (JSNum.num 0) (JSNum.num 1) (JSNum.num 1) (JSNum.num 1)
      (some (JSNum.num (1/2)))).row = -1 ∧
    (calculateFramePosition (JSNum.num 0) (JSNum.num 1) (JSNum.num 1) (JSNum.num 1)
      (some (JSNum.num (1/2)))).col = -(1/2) := by
  refine ⟨by norm_num, ?_, ?_⟩ <;>
    simp only [calculateFramePosition, fpIndex, sanitizeIndex, sanitizeAtLeastOne, jsMod,
      jsTrunc] <;>
    norm_num [min_def]

/-- C10 amended: `calculateFramePosition` is total; after sanitization the
index is non-negative and the cols divisor is at least one, the returned
row is `floor(index / cols) ≥ 0`, the returned col is `index % cols` with
`0 ≤ col < cols`, and a supplied `totalFrames` clamps the index to at most
`totalFrames - 1` — PROVIDED every supplied positive `totalFrames` is at
least `1` (for fractional `totalFrames` in `(0, 1)` the clamp makes the
index, row and col negative, as the counterexample shows). -/
theorem C10_frame_position_sanitized (index cols frameWidth frameHeight : JSNum)
    (tf : Option JSNum)
    (h : ∀ t : ℚ, tf = some (JSNum.num t) → 0 < t → 1 ≤ t) :
    0 ≤ fpIndex index tf ∧
    1 ≤ sanitizeAtLeastOne cols ∧
    (calculateFramePosition index cols frameWidth frameHeight tf).row =
      Int.floor (fpIndex index tf / sanitizeAtLeastOne cols) ∧
    0 ≤ (calculateFramePosition index cols frameWidth frameHeight tf).row ∧
    (calculateFramePosition index cols frameWidth frameHeight tf).col =
      jsMod (fpIndex index tf) (sanitizeAtLeastOne cols) ∧
    0 ≤ (calculateFramePosition index cols frameWidth frameHeight tf).col ∧
    (calculateFramePosition index cols frameWidth frameHeight tf).col <
      sanitizeAtLeastOne cols ∧
    (∀ t : ℚ, tf = some (JSNum.num t) → 0 < t → fpIndex index tf ≤ t - 1) := by
  have hcols : 1 ≤ sanitizeAtLeastOne cols := sanitizeAtLeastOne_ge cols
  have hcols0 : 0 < sanitizeAtLeastOne cols := lt_of_lt_of_le one_pos hcols
  have hidx : 0 ≤ fpIndex index tf := by
    cases tf with
    | none => exact sanitizeIndex_nonneg index
    | some j =>
      cases j with
      | nan => exact sanitizeIndex_nonneg index
      | num t =>
        show 0 ≤ if 0 < t then min (sanitizeIndex index) (t - 1) else sanitizeIndex index
        split_ifs with ht
        · have h1t : 1 ≤ t := h t rfl ht
          exact le_min (sanitizeIndex_nonneg index) (by linarith)
        · exact sanitizeIndex_nonneg index
  have hmod := jsMod_bounds (fpIndex index tf) (sanitizeAtLeastOne cols) hidx hcols0
  refine ⟨hidx, hcols, rfl, ?_, rfl, hmod.2.1, hmod.2.2, ?_⟩
  · exact Int.floor_nonneg.mpr (div_nonneg hidx (le_of_lt hcols0))
  · intro t ht htpos
    rw [ht]
    show (if 0 < t then min (sanitizeIndex index) (t - 1) else sanitizeIndex index) ≤ t - 1
    rw [if_pos htpos]
    exact min_le_right _ _

/-- C10 witness: index 3 of a 2-column grid with no `totalFrames`
supplied — the column is in `[0, 2)`. -/
theorem C10_frame_position_sanitized_witness :
    (∀ t : ℚ, (none : Option JSNum) = some (JSNum.num t) → 0 < t → 1 ≤ t) ∧
    0 ≤ (calculateFramePosition (JSNum.num 3) (JSNum.num 2) (JSNum.num 4) (JSNum.num 4)
      none).col ∧
    (calculateFramePosition (JSNum.num 3) (JSNum.num 2) (JSNum.num 4) (JSNum.num 4)
      none).col < sanitizeAtLeastOne (JSNum.num 2) := by
  have hh : ∀ t : ℚ, (none : Option JSNum) = some (JSNum.num t) → 0 < t → 1 ≤ t := by
    intro t ht
    simp at ht
  have h := C10_frame_position_sanitized (JSNum.num 3) (JSNum.num 2) (JSNum.num 4)
    (JSNum.num 4) none hh
  exact ⟨hh, h.2.2.2.2.2.1, h.2.2.2.2.2.2.1⟩
